import Mathlib

/-!
Shallow embedding of the booking / payment-reconciliation core of the
campus_stay_accommodation Flask application (src/app.py, src/models.py).

Prices are modelled as rationals (the source stores floats, but every value
the core manipulates is an exact decimal: monthly price times an integer
month count, compared against the 0.50 minimum).  Database rows are lists of
records; `.first()` queries become `List.find?`; `db.session.delete` of a
single fetched row becomes `List.eraseP` (first match); SQLAlchemy commits
become pure state updates, and a rolled-back transaction leaves the state
unchanged.  The external Stripe provider is a parameter: for `book`, the
`Option String` result of opening a checkout session (`none` = the provider
call raised); for `payment_success`, a lookup function from session id to
payment status (`none` = `Session.retrieve` raised / session absent).
-/

namespace CampusStay

/-- Mirrors `models.Accommodation` (the fields the core reads/writes). -/
structure Accommodation where
  id : Nat
  pricePerMonth : ℚ
  capacity : Nat
  currentOccupancy : Nat
  isActive : Bool
deriving Repr, DecidableEq

/-- `Accommodation.is_full` from src/models.py:
`return self.current_occupancy >= self.capacity`. -/
def Accommodation.is_full (a : Accommodation) : Bool :=
  a.capacity ≤ a.currentOccupancy

/-- Mirrors `models.Booking`.  `duration` is the raw form value, which the
source stores as-is; the column is `nullable=False`, so persisting a `none`
duration fails (modelled in `book`). -/
structure Booking where
  id : Nat
  userId : Nat
  accommodationId : Nat
  duration : Option String
  months : Nat
  totalPrice : ℚ
  status : String
  stripeSessionId : Option String
deriving Repr, DecidableEq

/-- Mirrors `models.Review`. -/
structure Review where
  userId : Nat
  accommodationId : Nat
  rating : Nat
  comment : String
deriving Repr, DecidableEq

/-- Mirrors `models.Favorite`. -/
structure Favorite where
  userId : Nat
  accommodationId : Nat
deriving Repr, DecidableEq

/-- The relational state the core mutates.  `nextBookingId` models the
autoincrement primary key of the `booking` table. -/
structure DBState where
  accommodations : List Accommodation
  bookings : List Booking
  reviews : List Review
  favorites : List Favorite
  nextBookingId : Nat
deriving Repr, DecidableEq

/-- `Accommodation.query.get(id)` / `get_or_404(id)`. -/
def findAccommodation (st : DBState) (accId : Nat) : Option Accommodation :=
  st.accommodations.find? (fun a => a.id == accId)

/-- The duration→months mapping in `book` (src/app.py lines 323-327):
`if duration == 'annual': months = 10 else: months = 5`.
A missing value (`request.form.get` returning `None`) also takes the
else-branch. -/
def durationMonths (duration : Option String) : Nat :=
  if duration = some "annual" then 10 else 5

/-- Outcome of the `book` view.  `fullyBooked` and `priceTooLow` are the two
flash-and-redirect rejections before the booking row is created;
`bookingFailed` is the outer exception handler (reached when the insert
itself fails, e.g. NOT NULL violation on `duration`); `paymentSetupFailed`
is the Stripe-failure path in which the fresh booking is deleted again. -/
inductive BookResult where
  | notFound
  | fullyBooked
  | priceTooLow
  | bookingFailed
  | paymentSetupFailed
  | checkout (sessionId : String)
deriving Repr, DecidableEq

/-- The `book` view (src/app.py lines 313-384).  `stripeSession` is the
outcome of `stripe.checkout.Session.create`: `some sid` on success, `none`
when the provider raises. -/
def book (st : DBState) (userId accId : Nat) (duration : Option String)
    (stripeSession : Option String) : BookResult × DBState :=
  match findAccommodation st accId with
  | none => (BookResult.notFound, st)
  | some accommodation =>
    if accommodation.is_full then
      (BookResult.fullyBooked, st)
    else
      let months := durationMonths duration
      let total_price := accommodation.pricePerMonth * (months : ℚ)
      if total_price < 1/2 then
        (BookResult.priceTooLow, st)
      else
        match duration with
        | none =>
          -- Booking(duration=None) violates the NOT NULL column constraint:
          -- db.session.commit() raises, the outer handler rolls back.
          (BookResult.bookingFailed, st)
        | some d =>
          let booking : Booking :=
            { id := st.nextBookingId, userId := userId, accommodationId := accId,
              duration := some d, months := months, totalPrice := total_price,
              status := "approved", stripeSessionId := none }
          let st1 : DBState :=
            { st with bookings := st.bookings ++ [booking],
                      nextBookingId := st.nextBookingId + 1 }
          match stripeSession with
          | none =>
            (BookResult.paymentSetupFailed,
             { st1 with bookings :=
                 st1.bookings.filter (fun b => b.id != booking.id) })
          | some sid =>
            (BookResult.checkout sid,
             { st1 with bookings := st1.bookings.map (fun b =>
                 if b.id = booking.id then { b with stripeSessionId := some sid }
                 else b) })

/-- Outcome of the `payment_success` view.  `redirectIndex` is the silent
fall-through `return redirect(url_for('index'))` reached when the provider
status is not `'paid'` or when no booking matches the session id. -/
inductive PaymentSuccessResult where
  | invalidSession
  | verificationError
  | successPage (accommodationId : Nat)
  | redirectIndex
deriving Repr, DecidableEq

/-- The `payment_success` view (src/app.py lines 386-414), the
reconciliation entry point.  `retrieve` models
`stripe.checkout.Session.retrieve(sid).payment_status`; `none` means the
retrieval raised (absent/invalid session).  When the status is `'paid'` and
a booking matches, the booking is marked paid and the unit's occupancy is
incremented unconditionally; `is_active` is cleared when the incremented
occupancy reaches capacity.  No capacity check and no already-paid check are
performed. -/
def payment_success (st : DBState) (sessionId : Option String)
    (retrieve : String → Option String) : PaymentSuccessResult × DBState :=
  match sessionId with
  | none => (PaymentSuccessResult.invalidSession, st)
  | some sid =>
    match retrieve sid with
    | none => (PaymentSuccessResult.verificationError, st)
    | some paymentStatus =>
      if paymentStatus = "paid" then
        match st.bookings.find? (fun b => b.stripeSessionId == some sid) with
        | none => (PaymentSuccessResult.redirectIndex, st)
        | some booking =>
          match findAccommodation st booking.accommodationId with
          | none =>
            -- `accommodation.current_occupancy += 1` on None raises; nothing
            -- is committed.
            (PaymentSuccessResult.verificationError, st)
          | some accommodation =>
            let occ := accommodation.currentOccupancy + 1
            let acc2 : Accommodation :=
              { accommodation with
                currentOccupancy := occ,
                isActive := if accommodation.capacity ≤ occ then false
                            else accommodation.isActive }
            (PaymentSuccessResult.successPage booking.accommodationId,
             { st with
               bookings := st.bookings.map (fun b =>
                 if b.id = booking.id then { b with status := "paid" } else b),
               accommodations := st.accommodations.map (fun a =>
                 if a.id = acc2.id then acc2 else a) })
      else
        (PaymentSuccessResult.redirectIndex, st)

/-- Outcome of the `payment_cancel` view. -/
inductive CancelResult where
  | notFound
  | cancelledPage
deriving Repr, DecidableEq

/-- The `payment_cancel` view (src/app.py lines 416-428): sets the status to
`'cancelled'` only when it is currently `'approved'`; otherwise the booking
is left untouched and the cancel page still renders. -/
def payment_cancel (st : DBState) (bookingId : Nat) : CancelResult × DBState :=
  match st.bookings.find? (fun b => b.id == bookingId) with
  | none => (CancelResult.notFound, st)
  | some booking =>
    if booking.status = "approved" then
      (CancelResult.cancelledPage,
       { st with bookings := st.bookings.map (fun b =>
           if b.id = bookingId then { b with status := "cancelled" } else b) })
    else
      (CancelResult.cancelledPage, st)

/-- Predicate selecting the Favorite row of a (user, unit) pair. -/
def favPred (userId accId : Nat) (f : Favorite) : Bool :=
  f.userId == userId && f.accommodationId == accId

/-- The `toggle_favorite` view (src/app.py lines 269-293): deletes the
fetched row and reports `"removed"`, or inserts one and reports
`"added"`. -/
def toggle_favorite (st : DBState) (userId accId : Nat) : String × DBState :=
  match st.favorites.find? (favPred userId accId) with
  | some _ =>
    ("removed",
     { st with favorites := st.favorites.eraseP (favPred userId accId) })
  | none =>
    ("added",
     { st with favorites :=
         st.favorites ++ [{ userId := userId, accommodationId := accId }] })

/-- `has_booked` as computed in `accommodation_detail` and re-checked in
`submit_review`: a Booking row with this user, this unit and status
`'paid'`. -/
def has_booked (st : DBState) (userId accId : Nat) : Bool :=
  (st.bookings.find? (fun b =>
    b.userId == userId && b.accommodationId == accId && b.status == "paid")).isSome

/-- The `Review.query.filter_by(user_id, accommodation_id).first()` lookup. -/
def existing_review (st : DBState) (userId accId : Nat) : Option Review :=
  st.reviews.find? (fun r => r.userId == userId && r.accommodationId == accId)

/-- `can_review` as computed in `accommodation_detail` (src/app.py line 254):
`has_booked and not existing_review`. -/
def can_review (st : DBState) (userId accId : Nat) : Bool :=
  has_booked st userId accId && !(existing_review st userId accId).isSome

/-- Outcome of the `submit_review` view.  `invalidForm` is the silent
redirect taken when the WTForms validation fails after both gates passed. -/
inductive ReviewResult where
  | notEligible
  | duplicateReview
  | submitted
  | invalidForm
deriving Repr, DecidableEq

/-- The `submit_review` view (src/app.py lines 430-471): re-checks the paid
booking, then the existing review, then form validity, and only then inserts
the Review row. -/
def submit_review (st : DBState) (userId accId rating : Nat) (comment : String)
    (formValid : Bool) : ReviewResult × DBState :=
  if !(has_booked st userId accId) then
    (ReviewResult.notEligible, st)
  else if (existing_review st userId accId).isSome then
    (ReviewResult.duplicateReview, st)
  else if formValid then
    (ReviewResult.submitted,
     { st with reviews := st.reviews ++
         [{ userId := userId, accommodationId := accId,
            rating := rating, comment := comment }] })
  else
    (ReviewResult.invalidForm, st)

/-- The capacity-side of the spec invariant: `isActive = false` exactly when
occupancy has reached capacity. -/
abbrev activeIffBelowCapacity (st : DBState) : Prop :=
  ∀ a ∈ st.accommodations, (a.isActive = false ↔ a.capacity ≤ a.currentOccupancy)

/-- Membership of the favorite set: a Favorite row for (user, unit) exists. -/
def favMem (st : DBState) (userId accId : Nat) : Bool :=
  (st.favorites.find? (favPred userId accId)).isSome

/-- Number of Favorite rows for one (user, unit) pair. -/
def favCount (st : DBState) (userId accId : Nat) : Nat :=
  st.favorites.countP (favPred userId accId)

/-- The unique-constraint invariant of the `favorite` table: at most one row
per (user, unit) pair. -/
def favUnique (st : DBState) : Prop :=
  ∀ userId accId : Nat, favCount st userId accId ≤ 1

/-- A full unit (capacity 1, occupancy 1, closed). -/
def exAcc1 : Accommodation :=
  { id := 1, pricePerMonth := 500, capacity := 1, currentOccupancy := 1,
    isActive := false }

/-- An approved booking awaiting settlement, correlated to session "s". -/
def exBk1 : Booking :=
  { id := 1, userId := 1, accommodationId := 1, duration := some "semester",
    months := 5, totalPrice := 2500, status := "approved",
    stripeSessionId := some "s" }

/-- State: a full unit with one approved booking still awaiting payment. -/
def exSt1 : DBState :=
  { accommodations := [exAcc1], bookings := [exBk1], reviews := [],
    favorites := [], nextBookingId := 2 }

/-- State: a unit with one settled occupant (occupancy 1 of capacity 5) and
the corresponding already-paid booking (session "s"). -/
def exSt2 : DBState :=
  { accommodations :=
      [{ id := 1, pricePerMonth := 500, capacity := 5, currentOccupancy := 1,
         isActive := true }],
    bookings := [{ exBk1 with status := "paid" }], reviews := [],
    favorites := [], nextBookingId := 2 }

/-- The state produced by the settled branch of `payment_success`: the
matched booking is marked paid, the unit's occupancy is incremented and its
`isActive` flag cleared when the new occupancy reaches capacity. -/
def settleState (st : DBState) (bk : Booking) (acc : Accommodation) : DBState :=
  { st with
    bookings := st.bookings.map (fun b =>
      if b.id = bk.id then { b with status := "paid" } else b),
    accommodations := st.accommodations.map (fun a =>
      if a.id = acc.id then
        { acc with
          currentOccupancy := acc.currentOccupancy + 1,
          isActive := if acc.capacity ≤ acc.currentOccupancy + 1 then false
                      else acc.isActive }
      else a) }

/-- An open unit (capacity 2, occupancy 0) priced 500/month. -/
def exAccW : Accommodation :=
  { id := 1, pricePerMonth := 500, capacity := 2, currentOccupancy := 0,
    isActive := true }

/-- State: one open unit, no bookings yet. -/
def exStW : DBState :=
  { accommodations := [exAccW], bookings := [], reviews := [], favorites := [],
    nextBookingId := 1 }

/-- State: one paid booking for user 1 / unit 1, no reviews. -/
def exStR : DBState :=
  { accommodations := [exAccW],
    bookings := [{ exBk1 with status := "paid", stripeSessionId := some "s" }],
    reviews := [], favorites := [], nextBookingId := 2 }

end CampusStay

namespace CampusStay

/-! ### Generic list helpers -/

theorem map_fix_of_mem {α : Type} (l : List α) (f : α → α)
    (h : ∀ x ∈ l, f x = x) : l.map f = l := by
  induction l with
  | nil => rfl
  | cons a t ih =>
    simp only [List.map_cons]
    rw [h a (by simp), ih (fun x hx => h x (by simp [hx]))]

theorem find?_map_of_pred_stable {α : Type} (p : α → Bool) (g : α → α)
    (l : List α) (x : α) (h : l.find? p = some x)
    (hg : ∀ y, p (g y) = p y) :
    (l.map g).find? p = some (g x) := by
  induction l with
  | nil => simp at h
  | cons a t ih =>
    by_cases ha : p a = true
    · rw [List.find?_cons_of_pos _ ha] at h
      obtain rfl : a = x := by injection h
      simpa only [List.map_cons] using List.find?_cons_of_pos _ (by rw [hg]; exact ha)
    · have ha2 : ¬ p a := ha
      rw [List.find?_cons_of_neg _ ha2] at h
      simp only [List.map_cons]
      rw [List.find?_cons_of_neg _ (by rw [hg a]; exact ha2)]
      exact ih h

theorem countP_eraseP_sub_one {α : Type} (p : α → Bool) (l : List α)
    (h : ∃ x ∈ l, p x = true) :
    (l.eraseP p).countP p = l.countP p - 1 := by
  induction l with
  | nil => simp at h
  | cons a t ih =>
    by_cases ha : p a = true
    · rw [List.eraseP_cons_of_pos ha]
      simp [List.countP_cons, ha]
    · have ha2 : ¬ p a := ha
      rw [List.eraseP_cons_of_neg ha2]
      have ht : ∃ x ∈ t, p x = true := by
        obtain ⟨x, hx, hpx⟩ := h
        rcases List.mem_cons.1 hx with rfl | hxt
        · exact absurd hpx ha
        · exact ⟨x, hxt, hpx⟩
      simp [List.countP_cons, ha2, ih ht]

/-! ### The settled branch of payment_success -/

theorem payment_success_settled_eq (st : DBState) (sid : String)
    (retrieve : String → Option String) (bk : Booking) (acc : Accommodation)
    (hr : retrieve sid = some "paid")
    (hb : st.bookings.find? (fun b => b.stripeSessionId == some sid) = some bk)
    (hacc : findAccommodation st bk.accommodationId = some acc) :
    payment_success st (some sid) retrieve =
      (PaymentSuccessResult.successPage bk.accommodationId,
       settleState st bk acc) := by
  simp only [payment_success, hr, hb, hacc, if_true, settleState]

theorem settleState_find_booking (st : DBState) (sid : String)
    (bk : Booking) (acc : Accommodation)
    (hb : st.bookings.find? (fun b => b.stripeSessionId == some sid) = some bk) :
    (settleState st bk acc).bookings.find?
      (fun b => b.stripeSessionId == some sid) =
      some { bk with status := "paid" } := by
  have h := find?_map_of_pred_stable (fun b => b.stripeSessionId == some sid)
    (fun b => if b.id = bk.id then { b with status := "paid" } else b)
    st.bookings bk hb
    (by intro y; by_cases hy : y.id = bk.id <;> simp [hy])
  simpa [settleState] using h

theorem settleState_find_accommodation (st : DBState)
    (bk : Booking) (acc : Accommodation)
    (hacc : findAccommodation st bk.accommodationId = some acc) :
    findAccommodation (settleState st bk acc) bk.accommodationId =
      some { acc with
             currentOccupancy := acc.currentOccupancy + 1,
             isActive := if acc.capacity ≤ acc.currentOccupancy + 1 then false
                         else acc.isActive } := by
  have hacc2 : st.accommodations.find? (fun a => a.id == bk.accommodationId) =
      some acc := hacc
  have h := find?_map_of_pred_stable (fun a => a.id == bk.accommodationId)
    (fun a => if a.id = acc.id then
        { acc with
          currentOccupancy := acc.currentOccupancy + 1,
          isActive := if acc.capacity ≤ acc.currentOccupancy + 1 then false
                      else acc.isActive }
      else a)
    st.accommodations acc hacc2
    (by intro y; by_cases hy : y.id = acc.id <;> simp [hy])
  simpa [settleState, findAccommodation] using h

/-! ### Claim C1 -/

/-- Claim C1, amended.  Settlement (`payment_success`) performs no capacity
re-read and never fails with a CapacityExceeded error: whenever the provider
reports `paid` and a booking matches, it unconditionally increments the
unit's occupancy — so `currentOccupancy ≤ capacity` is NOT preserved (see
the counterexample) — and it sets `isActive` to false exactly when the new
occupancy reaches capacity, so the biconditional
`isActive = false ↔ currentOccupancy ≥ capacity` IS preserved by every
settlement. -/
theorem C1_settlement_preserves_active_iff (st : DBState)
    (sessionId : Option String) (retrieve : String → Option String)
    (hinv : activeIffBelowCapacity st) :
    activeIffBelowCapacity (payment_success st sessionId retrieve).2 := by
  cases sessionId with
  | none => simpa [payment_success] using hinv
  | some sid =>
    cases hr : retrieve sid with
    | none => simpa [payment_success, hr] using hinv
    | some status =>
      by_cases hp : status = "paid"
      · subst hp
        cases hb : st.bookings.find? (fun b => b.stripeSessionId == some sid) with
        | none => simpa [payment_success, hr, hb] using hinv
        | some bk =>
          cases hacc : findAccommodation st bk.accommodationId with
          | none => simpa [payment_success, hr, hb, hacc] using hinv
          | some acc =>
            intro x hx
            simp only [payment_success, hr, hb, hacc, if_true] at hx
            rw [List.mem_map] at hx
            obtain ⟨y, hy, rfl⟩ := hx
            have haccinv := hinv acc (List.mem_of_find?_eq_some hacc)
            by_cases hid : y.id = acc.id
            · simp only [hid, if_pos rfl]
              by_cases hc : acc.capacity ≤ acc.currentOccupancy + 1
              · simp [hc]
              · simp only [if_neg hc]
                constructor
                · intro hf
                  exact absurd (Nat.le_trans (haccinv.1 hf) (Nat.le_succ _)) hc
                · intro hcc
                  exact absurd hcc hc
            · simp only [if_neg hid]
              exact hinv y hy
      · simpa [payment_success, hr, hp] using hinv

/-- Witness for C1: a concrete settlement on a unit with free capacity,
starting from a state satisfying the active/occupancy biconditional; the
biconditional still holds afterwards. -/
theorem C1_witness :
    activeIffBelowCapacity exSt2 ∧
    activeIffBelowCapacity
      (payment_success exSt2 (some "s") (fun _ => some "paid")).2 :=
  ⟨by decide,
   C1_settlement_preserves_active_iff exSt2 (some "s") (fun _ => some "paid")
     (by decide)⟩

/-- Counterexample to C1 as stated: starting from a state in which
`currentOccupancy ≤ capacity` holds everywhere (a full unit: capacity 1,
occupancy 1) and the biconditional holds, one settlement of an approved
booking succeeds (no CapacityExceeded failure: it reports the success page)
and drives the occupancy to 2 > capacity 1. -/
theorem C1_counterexample :
    exAcc1.currentOccupancy ≤ exAcc1.capacity ∧
    activeIffBelowCapacity exSt1 ∧
    (payment_success exSt1 (some "s") (fun _ => some "paid")).1 =
      PaymentSuccessResult.successPage 1 ∧
    ¬ (∀ a ∈ (payment_success exSt1 (some "s") (fun _ => some "paid")).2.accommodations,
        a.currentOccupancy ≤ a.capacity) := by
  decide

/-! ### Claim C2 -/

/-- Claim C2, amended.  Reconciliation of an already-paid booking is
idempotent only on the booking row: the booking is left exactly as it was
(status still `paid`), but the unit's occupancy is incremented again on
every run — reconcile is NOT idempotent on occupancy and double-increments
occur. -/
theorem C2_reconcile_repaid_increments_again (st : DBState) (sid : String)
    (retrieve : String → Option String) (bk : Booking) (acc : Accommodation)
    (hr : retrieve sid = some "paid")
    (hb : st.bookings.find? (fun b => b.stripeSessionId == some sid) = some bk)
    (hstatus : bk.status = "paid")
    (hacc : findAccommodation st bk.accommodationId = some acc) :
    (payment_success st (some sid) retrieve).1 =
      PaymentSuccessResult.successPage bk.accommodationId ∧
    (payment_success st (some sid) retrieve).2.bookings.find?
      (fun b => b.stripeSessionId == some sid) = some bk ∧
    findAccommodation (payment_success st (some sid) retrieve).2
      bk.accommodationId =
      some { acc with
             currentOccupancy := acc.currentOccupancy + 1,
             isActive := if acc.capacity ≤ acc.currentOccupancy + 1 then false
                         else acc.isActive } := by
  have hpair := payment_success_settled_eq st sid retrieve bk acc hr hb hacc
  have hbk : { bk with status := "paid" } = bk := by
    rcases bk with ⟨i, u, a, d, m, t, s, ss⟩
    simp only at hstatus
    simp [hstatus]
  refine ⟨by rw [hpair], ?_, ?_⟩
  · rw [hpair]
    rw [settleState_find_booking st sid bk acc hb, hbk]
  · rw [hpair]
    exact settleState_find_accommodation st bk acc hacc

/-- Witness for C2: reconciling the already-paid booking of `exSt2` reports
the success page, leaves the booking row unchanged, and bumps the unit's
occupancy from 1 to 2. -/
theorem C2_witness :
    (payment_success exSt2 (some "s") (fun _ => some "paid")).1 =
      PaymentSuccessResult.successPage 1 ∧
    (payment_success exSt2 (some "s") (fun _ => some "paid")).2.bookings.find?
      (fun b => b.stripeSessionId == some "s") =
      some { exBk1 with status := "paid" } ∧
    findAccommodation (payment_success exSt2 (some "s") (fun _ => some "paid")).2 1 =
      some { id := 1, pricePerMonth := 500, capacity := 5, currentOccupancy := 2,
             isActive := true } := by
  have h := C2_reconcile_repaid_increments_again exSt2 "s" (fun _ => some "paid")
    { exBk1 with status := "paid" }
    { id := 1, pricePerMonth := 500, capacity := 5, currentOccupancy := 1,
      isActive := true }
    rfl (by decide) rfl (by decide)
  simpa using h

/-- Counterexample to C2 as stated: in `exSt2` the booking is already paid
and the unit's occupancy is 1; running reconcile on its reference once more
leaves the status `paid` but increments occupancy to 2, and a further run
gives 3 — occupancy is double-incremented, contradicting the claim. -/
theorem C2_counterexample :
    (exSt2.bookings.map (fun b => b.status) = ["paid"] ∧
     exSt2.accommodations.map (fun a => a.currentOccupancy) = [1]) ∧
    ((payment_success exSt2 (some "s") (fun _ => some "paid")).2.bookings.map
       (fun b => b.status) = ["paid"] ∧
     (payment_success exSt2 (some "s") (fun _ => some "paid")).2.accommodations.map
       (fun a => a.currentOccupancy) = [2]) ∧
    ((payment_success (payment_success exSt2 (some "s") (fun _ => some "paid")).2
        (some "s") (fun _ => some "paid")).2.accommodations.map
       (fun a => a.currentOccupancy) = [3]) := by
  decide

/-! ### Claim C3 -/

/-- Claim C3, amended.  What `payment_success` (reconcile) actually does
with a reference: if the provider lookup raises / the session is absent, it
reports a verification error and leaves the state unchanged — `cancel` is
NOT invoked; if the provider reports any non-`paid` status (e.g. a failed
payment), it silently redirects with the state unchanged — `cancel` is NOT
invoked; if the provider reports `paid` but no booking matches the
reference, it silently redirects with the state unchanged — no NotFound
error is reported; only if the provider reports `paid` and a booking
matches is that booking marked `paid` (settlement). -/
theorem C3_reconcile_outcomes (st : DBState) (sid : String)
    (retrieve : String → Option String) :
    (retrieve sid = none →
      payment_success st (some sid) retrieve =
        (PaymentSuccessResult.verificationError, st)) ∧
    (∀ status, retrieve sid = some status → status ≠ "paid" →
      payment_success st (some sid) retrieve =
        (PaymentSuccessResult.redirectIndex, st)) ∧
    (retrieve sid = some "paid" →
      st.bookings.find? (fun b => b.stripeSessionId == some sid) = none →
      payment_success st (some sid) retrieve =
        (PaymentSuccessResult.redirectIndex, st)) ∧
    (∀ bk acc, retrieve sid = some "paid" →
      st.bookings.find? (fun b => b.stripeSessionId == some sid) = some bk →
      findAccommodation st bk.accommodationId = some acc →
      (payment_success st (some sid) retrieve).1 =
        PaymentSuccessResult.successPage bk.accommodationId ∧
      (payment_success st (some sid) retrieve).2.bookings.find?
        (fun b => b.stripeSessionId == some sid) =
        some { bk with status := "paid" }) := by
  refine ⟨?_, ?_, ?_, ?_⟩
  · intro hr
    simp [payment_success, hr]
  · intro status hr hne
    simp [payment_success, hr, hne]
  · intro hr hb
    simp [payment_success, hr, hb]
  · intro bk acc hr hb hacc
    have hpair := payment_success_settled_eq st sid retrieve bk acc hr hb hacc
    refine ⟨by rw [hpair], ?_⟩
    rw [hpair]
    exact settleState_find_booking st sid bk acc hb

/-- Witness for C3: an absent session (provider lookup raises) on the empty
booking state reports a verification error and leaves the state unchanged. -/
theorem C3_witness :
    payment_success exStW (some "x") (fun _ => none) =
      (PaymentSuccessResult.verificationError, exStW) :=
  (C3_reconcile_outcomes exStW "x" (fun _ => none)).1 rfl

/-- Counterexample to C3 as stated: the provider reports a non-settled
status (`unpaid`) for the reference of an approved booking, yet the booking
is NOT cancelled — the state is completely unchanged and the request just
redirects, contradicting the claim that `cancel` is invoked on provider
failure. -/
theorem C3_counterexample :
    payment_success exSt1 (some "s") (fun _ => some "unpaid") =
      (PaymentSuccessResult.redirectIndex, exSt1) ∧
    ((payment_success exSt1 (some "s") (fun _ => some "unpaid")).2.bookings.map
       (fun b => b.status) = ["approved"]) := by
  decide

/-! ### The successful checkout path of book -/

theorem book_checkout_spec (st : DBState) (u a : Nat) (d sid : String)
    (acc : Accommodation)
    (hacc : findAccommodation st a = some acc)
    (hfull : acc.is_full = false)
    (hmin : ¬ acc.pricePerMonth * (durationMonths (some d) : ℚ) < 1/2)
    (hfresh : ∀ b ∈ st.bookings, b.id ≠ st.nextBookingId) :
    book st u a (some d) (some sid) =
      (BookResult.checkout sid,
       { st with
         bookings := st.bookings ++
           [{ id := st.nextBookingId, userId := u, accommodationId := a,
              duration := some d, months := durationMonths (some d),
              totalPrice := acc.pricePerMonth * (durationMonths (some d) : ℚ),
              status := "approved", stripeSessionId := some sid }],
         nextBookingId := st.nextBookingId + 1 }) := by
  simp only [book, hacc, hfull, Bool.false_eq_true, if_false, if_neg hmin,
    List.map_append, List.map_cons, List.map_nil, if_pos rfl]
  rw [map_fix_of_mem st.bookings _ (fun b hb => if_neg (hfresh b hb))]
  simp

/-! ### Claim C4 -/

/-- Claim C4, confirmed.  The `book` view creates a booking and opens a
checkout session only when the unit is not full and the computed total price
is at least the 0.50 minimum; a full unit or a below-minimum total is
rejected with a flash-and-redirect (the InvalidBookingRequest outcome) with
the state unchanged, and the below-minimum rejection happens whatever the
payment provider would answer — the provider is never reached. -/
theorem C4_create_guards (st : DBState) (u a : Nat) (d : Option String)
    (s : Option String) (acc : Accommodation)
    (hacc : findAccommodation st a = some acc) :
    (acc.is_full = true → book st u a d s = (BookResult.fullyBooked, st)) ∧
    (acc.is_full = false →
      acc.pricePerMonth * (durationMonths d : ℚ) < 1/2 →
      ∀ s2 : Option String, book st u a d s2 = (BookResult.priceTooLow, st)) ∧
    (∀ sid st2, book st u a d s = (BookResult.checkout sid, st2) →
      acc.is_full = false ∧
      ¬ acc.pricePerMonth * (durationMonths d : ℚ) < 1/2) := by
  refine ⟨?_, ?_, ?_⟩
  · intro hfull
    simp [book, hacc, hfull]
  · intro hfull hmin s2
    simp only [book, hacc, hfull, Bool.false_eq_true, if_false]
    rw [if_pos hmin]
  · intro sid st2 hres
    by_cases hfull : acc.is_full = true
    · simp [book, hacc, hfull] at hres
    · have hfull2 : acc.is_full = false := by
        cases h : acc.is_full
        · rfl
        · exact absurd h hfull
      by_cases hmin : acc.pricePerMonth * (durationMonths d : ℚ) < 1/2
      · rw [show book st u a d s = (BookResult.priceTooLow, st) by
          simp only [book, hacc, hfull2, Bool.false_eq_true, if_false]
          rw [if_pos hmin]] at hres
        simp at hres
      · exact ⟨hfull2, hmin⟩

/-- Witness for C4: booking the full unit of `exSt1` is rejected with the
fully-booked outcome and the state is unchanged. -/
theorem C4_witness :
    book exSt1 1 1 (some "semester") (some "sess") =
      (BookResult.fullyBooked, exSt1) :=
  (C4_create_guards exSt1 1 1 (some "semester") (some "sess") exAcc1
    (by decide)).1 (by decide)

/-! ### Claim C5 -/

/-- Claim C5, confirmed.  When the payment provider fails while opening the
checkout session, the just-created booking is deleted again: the failure
surfaces as the payment-setup-failed outcome (PaymentSessionError) and the
booking table is exactly as before the request — no dangling booking
without a live payment session. -/
theorem C5_provider_failure_no_dangling_booking (st : DBState) (u a : Nat)
    (d : String) (acc : Accommodation)
    (hacc : findAccommodation st a = some acc)
    (hfull : acc.is_full = false)
    (hmin : ¬ acc.pricePerMonth * (durationMonths (some d) : ℚ) < 1/2)
    (hfresh : ∀ b ∈ st.bookings, b.id ≠ st.nextBookingId) :
    (book st u a (some d) none).1 = BookResult.paymentSetupFailed ∧
    (book st u a (some d) none).2.bookings = st.bookings ∧
    (book st u a (some d) none).2.accommodations = st.accommodations := by
  simp only [book, hacc, hfull, Bool.false_eq_true, if_false, if_neg hmin]
  refine ⟨by trivial, ?_, by trivial⟩
  rw [List.filter_append]
  have h1 : st.bookings.filter (fun b => b.id != st.nextBookingId) = st.bookings :=
    List.filter_eq_self.mpr (fun b hb => by simpa using hfresh b hb)
  simp [h1]

/-- Witness for C5: with an open unit and a failing provider, the request
reports payment-setup failure and the booking table stays empty. -/
theorem C5_witness :
    (book exStW 1 1 (some "semester") none).1 = BookResult.paymentSetupFailed ∧
    (book exStW 1 1 (some "semester") none).2.bookings = exStW.bookings ∧
    (book exStW 1 1 (some "semester") none).2.accommodations =
      exStW.accommodations :=
  C5_provider_failure_no_dangling_booking exStW 1 1 "semester" exAccW
    rfl (by decide)
    (by rw [show durationMonths (some "semester") = 5 from by decide]
        norm_num [exAccW])
    (by simp [exStW])

/-! ### Claim C6 -/

/-- Claim C6, confirmed.  Every successfully created booking carries
`totalPrice = pricePerMonth × months`, where the duration tier maps annual
to 10 months and everything else (semester) to 5 months; in particular a
semester booking of a 500/month unit totals 2500 (see the witness). -/
theorem C6_total_price_formula (st : DBState) (u a : Nat) (d sid : String)
    (acc : Accommodation)
    (hacc : findAccommodation st a = some acc)
    (hfull : acc.is_full = false)
    (hmin : ¬ acc.pricePerMonth * (durationMonths (some d) : ℚ) < 1/2)
    (hfresh : ∀ b ∈ st.bookings, b.id ≠ st.nextBookingId) :
    durationMonths (some "annual") = 10 ∧
    (d ≠ "annual" → durationMonths (some d) = 5) ∧
    ∃ bk : Booking,
      (book st u a (some d) (some sid)).2.bookings = st.bookings ++ [bk] ∧
      bk.months = durationMonths (some d) ∧
      bk.totalPrice = acc.pricePerMonth * (durationMonths (some d) : ℚ) := by
  refine ⟨by decide, fun hne => by simp [durationMonths, hne], ?_⟩
  rw [book_checkout_spec st u a d sid acc hacc hfull hmin hfresh]
  exact ⟨_, rfl, rfl, rfl⟩

/-- Witness for C6: the end-to-end scenario of the spec — a 500/month unit
booked on the semester tier yields a booking of 5 months totalling 2500. -/
theorem C6_witness :
    ∃ bk : Booking,
      (book exStW 1 1 (some "semester") (some "sess")).2.bookings =
        exStW.bookings ++ [bk] ∧
      bk.months = 5 ∧ bk.totalPrice = 2500 := by
  obtain ⟨-, h5, bk, hb, hm, ht⟩ :=
    C6_total_price_formula exStW 1 1 "semester" "sess" exAccW
      rfl (by decide)
      (by rw [show durationMonths (some "semester") = 5 from by decide]
          norm_num [exAccW])
      (by simp [exStW])
  refine ⟨bk, hb, ?_, ?_⟩
  · rw [hm]; decide
  · rw [ht, show durationMonths (some "semester") = 5 from by decide]
    norm_num [exAccW]

/-! ### Claim C7 -/

/-- Claim C7, confirmed.  `can_review` is true exactly when a paid booking
for the (user, unit) pair exists and no review by that user for that unit
exists yet; `submit_review` re-checks this at write time, failing with
NotEligible when no paid booking exists, with DuplicateReview when a review
already exists, and it inserts a review only when `can_review` held. -/
theorem C7_review_eligibility (st : DBState) (u a rating : Nat)
    (comment : String) (formValid : Bool) :
    (can_review st u a = true ↔
      ((∃ b ∈ st.bookings, b.userId = u ∧ b.accommodationId = a ∧
          b.status = "paid") ∧
       ¬ ∃ r ∈ st.reviews, r.userId = u ∧ r.accommodationId = a)) ∧
    (has_booked st u a = false →
      submit_review st u a rating comment formValid =
        (ReviewResult.notEligible, st)) ∧
    (has_booked st u a = true → (existing_review st u a).isSome = true →
      submit_review st u a rating comment formValid =
        (ReviewResult.duplicateReview, st)) ∧
    (∀ res st2, submit_review st u a rating comment formValid = (res, st2) →
      st2.reviews ≠ st.reviews →
      can_review st u a = true ∧ res = ReviewResult.submitted ∧
      st2.reviews = st.reviews ++
        [{ userId := u, accommodationId := a, rating := rating,
           comment := comment }]) := by
  refine ⟨?_, ?_, ?_, ?_⟩
  · simp [can_review, has_booked, existing_review, List.find?_isSome,
      and_assoc]
  · intro hb
    simp [submit_review, hb]
  · intro hb hex
    simp [submit_review, hb, hex]
  · intro res st2 h hne
    by_cases hb : has_booked st u a
    · by_cases hex : (existing_review st u a).isSome
      · simp [submit_review, hb, hex] at h
        rw [← h.2] at hne
        exact absurd rfl hne
      · cases hfv : formValid
        · rw [hfv] at h
          simp [submit_review, hb, hex] at h
          rw [← h.2] at hne
          exact absurd rfl hne
        · rw [hfv] at h
          simp [submit_review, hb, hex] at h
          refine ⟨by simp [can_review, hb, hex], h.1.symm, ?_⟩
          rw [← h.2]
    · simp [submit_review, hb] at h
      rw [← h.2] at hne
      exact absurd rfl hne

/-- Witness for C7: with no booking at all, submitting a review is rejected
as not eligible and the state is unchanged. -/
theorem C7_witness :
    submit_review exStW 1 1 5 "great" true = (ReviewResult.notEligible, exStW) :=
  (C7_review_eligibility exStW 1 1 5 "great" true).2.1 (by decide)

/-! ### Claim C8 -/

theorem favMem_iff_count_pos (st : DBState) (u a : Nat) :
    favMem st u a = true ↔ 0 < favCount st u a := by
  simp [favMem, favCount, List.find?_isSome, List.countP_pos_iff]

theorem favPred_self (u a : Nat) :
    favPred u a { userId := u, accommodationId := a } = true := by
  simp [favPred]

theorem toggle_preserves_unique (st : DBState) (u a : Nat)
    (h : favUnique st) : favUnique (toggle_favorite st u a).2 := by
  intro u2 a2
  cases hf : st.favorites.find? (favPred u a) with
  | some f =>
    have hsub : List.Sublist ((toggle_favorite st u a).2.favorites)
        st.favorites := by
      simp only [toggle_favorite, hf]
      exact List.eraseP_sublist ..
    exact le_trans (hsub.countP_le _) (h u2 a2)
  | none =>
    have hzero : ∀ x ∈ st.favorites, ¬ favPred u a x :=
      List.find?_eq_none.1 hf
    simp only [toggle_favorite, hf, favCount, List.countP_append]
    by_cases hq : favPred u2 a2 { userId := u, accommodationId := a }
    · have hu : u = u2 ∧ a = a2 := by simpa [favPred] using hq
      obtain ⟨rfl, rfl⟩ := hu
      have hc0 : st.favorites.countP (favPred u a) = 0 :=
        List.countP_eq_zero.2 hzero
      simp [hc0, hq]
    · have hcount := h u2 a2
      simp only [favCount] at hcount
      simp [hq, hcount]

/-- Claim C8, confirmed.  `toggle_favorite` reports `removed` and deletes
the row exactly when a Favorite row for (user, unit) exists, and reports
`added` and creates one otherwise; membership flips on each toggle, the
at-most-one-row-per-pair invariant of the unique constraint is preserved,
and two consecutive toggles restore the original membership state. -/
theorem C8_toggle_roundtrip (st : DBState) (u a : Nat)
    (hstu : favUnique st) :
    ((toggle_favorite st u a).1 =
      if favMem st u a then "removed" else "added") ∧
    (favMem (toggle_favorite st u a).2 u a = !(favMem st u a)) ∧
    favUnique (toggle_favorite st u a).2 ∧
    favMem (toggle_favorite (toggle_favorite st u a).2 u a).2 u a =
      favMem st u a := by
  have key : ∀ s : DBState, favUnique s →
      ((toggle_favorite s u a).1 =
        if favMem s u a then "removed" else "added") ∧
      (favMem (toggle_favorite s u a).2 u a = !(favMem s u a)) := by
    intro s hs
    cases hf : s.favorites.find? (favPred u a) with
    | some f =>
      have hmem : favMem s u a = true := by simp [favMem, hf]
      have hcpos : 0 < favCount s u a := (favMem_iff_count_pos s u a).1 hmem
      have hcle : favCount s u a ≤ 1 := hs u a
      have hex : ∃ x ∈ s.favorites, favPred u a x = true :=
        ⟨f, List.mem_of_find?_eq_some hf, List.find?_some hf⟩
      have hc0 : favCount (toggle_favorite s u a).2 u a = 0 := by
        simp only [toggle_favorite, hf, favCount]
        rw [countP_eraseP_sub_one _ _ hex]
        simp only [favCount] at hcpos hcle
        omega
      have hm2 : favMem (toggle_favorite s u a).2 u a = false := by
        cases hm : favMem (toggle_favorite s u a).2 u a
        · rfl
        · have := (favMem_iff_count_pos _ u a).1 hm
          rw [hc0] at this
          exact absurd this (by omega)
      refine ⟨by simp [toggle_favorite, hf, hmem], by rw [hm2, hmem]; rfl⟩
    | none =>
      have hmem : favMem s u a = false := by simp [favMem, hf]
      have hm2 : favMem (toggle_favorite s u a).2 u a = true := by
        simp only [toggle_favorite, hf, favMem]
        rw [List.find?_isSome]
        exact ⟨{ userId := u, accommodationId := a }, by simp,
          favPred_self u a⟩
      refine ⟨by simp [toggle_favorite, hf, hmem], by rw [hm2, hmem]; rfl⟩
  have h1 := key st hstu
  have huniq : favUnique (toggle_favorite st u a).2 :=
    toggle_preserves_unique st u a hstu
  have h2 := key (toggle_favorite st u a).2 huniq
  refine ⟨h1.1, h1.2, huniq, ?_⟩
  rw [h2.2, h1.2, Bool.not_not]

/-- Witness for C8: starting from the empty favorite set (which trivially
satisfies the unique constraint), a double toggle for (1,1) returns to the
original non-membership. -/
theorem C8_witness :
    favUnique exStW ∧
    favMem (toggle_favorite (toggle_favorite exStW 1 1).2 1 1).2 1 1 =
      favMem exStW 1 1 := by
  have hu : favUnique exStW := by
    intro u a
    simp [favCount, exStW]
  exact ⟨hu, (C8_toggle_roundtrip exStW 1 1 hu).2.2.2⟩

/-! ### Claim C9 -/

/-- Claim C9, confirmed.  The payment-cancel endpoint mutates a booking only
when its status is `approved` (setting it to `cancelled`); for a booking in
any other status — in particular `paid` or already `cancelled` — the state
is left completely unchanged and the request still completes normally with
the cancel page, so a paid booking is never reverted by this operation. -/
theorem C9_cancel_only_approved (st : DBState) (bid : Nat) (bk : Booking)
    (hb : st.bookings.find? (fun b => b.id == bid) = some bk) :
    (bk.status ≠ "approved" →
      payment_cancel st bid = (CancelResult.cancelledPage, st)) ∧
    (bk.status = "approved" →
      (payment_cancel st bid).1 = CancelResult.cancelledPage ∧
      (payment_cancel st bid).2.bookings.find? (fun b => b.id == bid) =
        some { bk with status := "cancelled" }) := by
  constructor
  · intro hne
    simp [payment_cancel, hb, hne]
  · intro happ
    have hpair : payment_cancel st bid = (CancelResult.cancelledPage,
        { st with bookings := st.bookings.map (fun b =>
            if b.id = bid then { b with status := "cancelled" } else b) }) := by
      simp [payment_cancel, hb, happ]
    rw [hpair]
    refine ⟨rfl, ?_⟩
    have h := find?_map_of_pred_stable (fun b => b.id == bid)
      (fun b => if b.id = bid then { b with status := "cancelled" } else b)
      st.bookings bk hb
      (by intro y; by_cases hy : y.id = bid <;> simp [hy])
    have hid : bk.id = bid := by simpa using List.find?_some hb
    rw [h]
    simp [hid]

/-- Witness for C9: cancelling the paid booking of `exStR` leaves the state
unchanged and still renders the cancel page. -/
theorem C9_witness :
    payment_cancel exStR 1 = (CancelResult.cancelledPage, exStR) :=
  (C9_cancel_only_approved exStR 1
    { exBk1 with status := "paid" } (by decide)).1 (by decide)

/-! ### Claim C10 -/

/-- Claim C10, amended.  Any submitted duration string other than exactly
`annual` — including the empty string and unrecognized values — maps to 5
months and is silently treated as a semester booking, never rejected as
invalid input; a MISSING duration also maps to 5 months and passes the
validation checks, but persisting the booking then fails (NOT NULL
constraint on the `duration` column), so the request ends in a generic
booking failure with no booking created, rather than being silently treated
as a semester booking. -/
theorem C10_duration_fallback (st : DBState) (u a : Nat) (s sid : String)
    (acc : Accommodation)
    (hacc : findAccommodation st a = some acc)
    (hfull : acc.is_full = false)
    (hmin : ¬ acc.pricePerMonth * (5 : ℚ) < 1/2)
    (hfresh : ∀ b ∈ st.bookings, b.id ≠ st.nextBookingId)
    (hs : s ≠ "annual") :
    durationMonths (some s) = 5 ∧
    durationMonths none = 5 ∧
    (book st u a (some s) (some sid)).1 = BookResult.checkout sid ∧
    (∃ bk, (book st u a (some s) (some sid)).2.bookings = st.bookings ++ [bk] ∧
      bk.months = 5 ∧ bk.duration = some s) ∧
    book st u a none (some sid) = (BookResult.bookingFailed, st) := by
  have hm5 : durationMonths (some s) = 5 := by simp [durationMonths, hs]
  have hm5n : durationMonths none = 5 := rfl
  have hmin2 : ¬ acc.pricePerMonth * (durationMonths (some s) : ℚ) < 1/2 := by
    rw [hm5]
    exact_mod_cast hmin
  have hspec := book_checkout_spec st u a s sid acc hacc hfull hmin2 hfresh
  refine ⟨hm5, hm5n, by rw [hspec], ⟨_, by rw [hspec], by simp [hm5], rfl⟩, ?_⟩
  have hminn : ¬ acc.pricePerMonth * (durationMonths (none : Option String) : ℚ) < 1/2 := by
    rw [hm5n]
    exact_mod_cast hmin
  simp only [book, hacc, hfull, Bool.false_eq_true, if_false, if_neg hminn]

/-- Witness for C10: booking with the unrecognized duration string "x" on an
open 500/month unit succeeds as a 5-month (semester) booking. -/
theorem C10_witness :
    (book exStW 1 1 (some "x") (some "sess")).1 = BookResult.checkout "sess" ∧
    (∃ bk, (book exStW 1 1 (some "x") (some "sess")).2.bookings =
        exStW.bookings ++ [bk] ∧ bk.months = 5 ∧ bk.duration = some "x") := by
  have h := C10_duration_fallback exStW 1 1 "x" "sess" exAccW
    rfl (by decide) (by norm_num [exAccW]) (by simp [exStW]) (by decide)
  exact ⟨h.2.2.1, h.2.2.2.1⟩

/-- Counterexample to C10 as stated: a booking request with a MISSING
duration value is not silently treated as a semester booking — it fails
with the generic booking error (the NOT NULL constraint on the `duration`
column aborts the insert) and no booking row is created. -/
theorem C10_counterexample :
    book exStW 1 1 none (some "sess") = (BookResult.bookingFailed, exStW) ∧
    ¬ ∃ bk, (book exStW 1 1 none (some "sess")).2.bookings =
        exStW.bookings ++ [bk] := by
  have hacc : findAccommodation exStW 1 = some exAccW := rfl
  have hfull : exAccW.is_full = false := by decide
  have hmin : ¬ exAccW.pricePerMonth *
      ((durationMonths (none : Option String) : ℕ) : ℚ) < 1/2 := by
    rw [show durationMonths (none : Option String) = 5 from rfl]
    norm_num [exAccW]
  have h1 : book exStW 1 1 none (some "sess") =
      (BookResult.bookingFailed, exStW) := by
    simp only [book, hacc, hfull, Bool.false_eq_true, if_false, if_neg hmin]
  refine ⟨h1, ?_⟩
  rw [h1]
  simp [exStW]

end CampusStay
